import Mathlib

/-!
Shallow embedding of the pansyncer core: the sync engine of
src/pansyncer/sync.py (class SyncManager) and the reconnection scheduler of
src/pansyncer/reconnect_scheduler.py (class ReconnectScheduler).

Wire data is modelled as byte lists (a Python bytes object), timestamps as
rationals (Python floats are used by the source only for comparisons and
additions on small decimal constants, where IEEE doubles and exact rationals
agree for every value appearing in the claims), and frequencies as integers.
Socket and poll behaviour is an explicit per-tick environment: which poll
flags fired, what recv returned, whether sendall succeeded.  Python
exceptions that can escape a function are modelled with Except.
-/

set_option maxRecDepth 100000

namespace Pansyncer

/-- A Python bytes object: a list of byte values. -/
abbrev Bytes := List Nat

/-- ASCII encoding of a Lean string, for building the literal byte strings
the source builds (all source command strings are ASCII). -/
def strB (s : String) : Bytes := s.toList.map Char.toNat

/-- Python exceptions that can escape the modelled code paths. -/
inductive PyErr where
  | attributeError
  | unicodeDecodeError
  deriving DecidableEq, Repr

/-- Is the byte an ASCII whitespace byte (the set Python strips around an
integer literal in int(bytes))? -/
def isPySpace (b : Nat) : Bool :=
  b == 32 || b == 9 || b == 10 || b == 13 || b == 11 || b == 12

/-- Is the byte an ASCII digit? -/
def isDigitB (b : Nat) : Bool := 48 ≤ b && b ≤ 57

/-- Digits with single underscores allowed strictly between digits:
the tail of a Python integer literal after its first digit. -/
def pyDigitsTail : Bytes → Bool
  | [] => true
  | 95 :: b :: rest => isDigitB b && pyDigitsTail rest
  | [95] => false
  | b :: rest => isDigitB b && pyDigitsTail rest

/-- A nonempty Python digit run: first byte a digit, then pyDigitsTail. -/
def pyDigits : Bytes → Bool
  | [] => false
  | b :: rest => isDigitB b && pyDigitsTail rest

/-- Numeric value of a digit-and-underscore run (assumes pyDigits holds). -/
def digitsVal (acc : Nat) : Bytes → Nat
  | [] => acc
  | 95 :: rest => digitsVal acc rest
  | b :: rest => digitsVal (acc * 10 + (b - 48)) rest

/-- Python int(bytes) for ASCII input: strip surrounding whitespace, optional
sign, nonempty digits with single interior underscores.  Returns none exactly
when CPython raises ValueError (a bytes literal allows only ASCII digits
and whitespace). -/
def pyParseInt (raw : Bytes) : Option Int :=
  let core := (raw.dropWhile isPySpace).reverse.dropWhile isPySpace |>.reverse
  let signed : Option (Bool × Bytes) :=
    match core with
    | 43 :: rest => some (false, rest)
    | 45 :: rest => some (true, rest)
    | rest => some (false, rest)
  match signed with
  | some (neg, digits) =>
      if pyDigits digits then
        let v : Int := Int.ofNat (digitsVal 0 digits)
        some (if neg then -v else v)
      else none
  | none => none

/-- Strict UTF-8 validity of a byte list, as checked by Python
bytes.decode() with the default codec (surrogates rejected). -/
def utf8Valid : Bytes → Bool
  | [] => true
  | b :: rest =>
    if b < 128 then utf8Valid rest
    else if 194 ≤ b && b ≤ 223 then
      match rest with
      | c1 :: r => (128 ≤ c1 && c1 ≤ 191) && utf8Valid r
      | _ => false
    else if b == 224 then
      match rest with
      | c1 :: c2 :: r => (160 ≤ c1 && c1 ≤ 191) && (128 ≤ c2 && c2 ≤ 191) && utf8Valid r
      | _ => false
    else if (225 ≤ b && b ≤ 236) || b == 238 || b == 239 then
      match rest with
      | c1 :: c2 :: r => (128 ≤ c1 && c1 ≤ 191) && (128 ≤ c2 && c2 ≤ 191) && utf8Valid r
      | _ => false
    else if b == 237 then
      match rest with
      | c1 :: c2 :: r => (128 ≤ c1 && c1 ≤ 159) && (128 ≤ c2 && c2 ≤ 191) && utf8Valid r
      | _ => false
    else if b == 240 then
      match rest with
      | c1 :: c2 :: c3 :: r =>
          (144 ≤ c1 && c1 ≤ 191) && (128 ≤ c2 && c2 ≤ 191) && (128 ≤ c3 && c3 ≤ 191)
            && utf8Valid r
      | _ => false
    else if 241 ≤ b && b ≤ 243 then
      match rest with
      | c1 :: c2 :: c3 :: r =>
          (128 ≤ c1 && c1 ≤ 191) && (128 ≤ c2 && c2 ≤ 191) && (128 ≤ c3 && c3 ≤ 191)
            && utf8Valid r
      | _ => false
    else if b == 244 then
      match rest with
      | c1 :: c2 :: c3 :: r =>
          (128 ≤ c1 && c1 ≤ 143) && (128 ≤ c2 && c2 ≤ 191) && (128 ≤ c3 && c3 ≤ 191)
            && utf8Valid r
      | _ => false
    else false

/-- Python bytes.split(b-newline): splitting a byte list at byte 10.
Empty input gives one empty part, n separators give n+1 parts. -/
def splitNl : Bytes → List Bytes
  | [] => [[]]
  | 10 :: rest => [] :: splitNl rest
  | b :: rest =>
    match splitNl rest with
    | h :: t => (b :: h) :: t
    | [] => [[b]]

/-- Split a byte list at the first space byte, as part.split(b-space, 1):
none when no space occurs (the unpacking then raises ValueError). -/
def splitFirstSpace : Bytes → Option (Bytes × Bytes)
  | [] => none
  | 32 :: rest => some ([], rest)
  | b :: rest =>
    match splitFirstSpace rest with
    | some (l, r) => some (b :: l, r)
    | none => none

/-! ## Sync engine data model (src/pansyncer/sync.py, class SyncManager)

Timestamps and durations are modelled as integers in an abstract time unit:
the source stores float seconds but only ever adds, subtracts and compares
them, so any ordered additive carrier is faithful; concrete traces pick
whole numbers.  The ifreq configuration value (MHz, a CLI float) is kept as
an exact rational. -/

/-- The two peers of the engine: the radio dict keys of SyncManager. -/
inductive Role where
  | rig
  | gqrx
  deriving DecidableEq, Repr

/-- One entry of SyncManager.radio: per-peer connection and frequency state.
The socket handle is abstracted to its presence; sent_log is a ghost log of
the byte strings pushed through sock.sendall, newest last. -/
structure PeerState where
  sock : Bool
  recon_interval : ℤ
  recon_timestamp : ℤ
  freq_cur : Option ℤ
  freq_prev : Option ℤ
  freq_sent : Option ℤ
  freq_delta : ℤ
  freq_delta_sent : ℤ
  freq_query_interval : ℤ
  is_busy : Option ℤ
  send_timestamp : ℤ
  timeout : ℤ
  recv_buf : Bytes
  command : Option Bytes
  sent_log : List Bytes
  deriving DecidableEq, Repr

/-- Engine-level state of SyncManager.  freq_prev starts as the int 0 in the
source but is reassigned from the optional freq_cur (lines 477 and 502), so
it is optional here with initial value some 0.  step_size models
self.step.get_step(), the current step cycler value read at nudge time;
rig_enabled and gqrx_enabled model self.devices.enabled for the two tags. -/
structure EngineState where
  rig : PeerState
  gqrx : PeerState
  sync_on : Bool
  wanted_sync : Bool
  ifreq : Option ℚ
  step_size : ℤ
  nudge_buffer : ℤ
  sync_debounce_time : ℤ
  sync_time : ℤ
  sync_lead : Option Role
  rig_enabled : Bool
  gqrx_enabled : Bool
  shutdown_flag : Bool
  max_read_buffer_bytes : ℕ
  log_enabled : Bool
  last_rig_change : Option ℤ
  rig_reported : Bool
  wait_before_log_rigfreq : ℤ
  deriving DecidableEq, Repr

/-- Select the peer record for a role. -/
def EngineState.peer (s : EngineState) : Role → PeerState
  | .rig => s.rig
  | .gqrx => s.gqrx

/-- Replace the peer record for a role. -/
def EngineState.setPeer (s : EngineState) : Role → PeerState → EngineState
  | .rig, p => { s with rig := p }
  | .gqrx, p => { s with gqrx := p }

/-- devices.enabled(role) for the two radio tags. -/
def EngineState.enabledFor (s : EngineState) : Role → Bool
  | .rig => s.rig_enabled
  | .gqrx => s.gqrx_enabled

/-- The b"f\n" frequency query. -/
def fQueryCmd : Bytes := strB "f\n"

/-- The b"LNB_LO\n" local-oscillator query. -/
def lnbQueryCmd : Bytes := strB "LNB_LO\n"

/-- SyncManager._build_cat_cmd: the bytes b"LNB_LO " or b"F ", then
str(freq).encode(), then b"\n", concatenated. -/
def build_cat_cmd (freq : ℤ) (is_lo : Bool) : Bytes :=
  (if is_lo then strB "LNB_LO " else strB "F ") ++ strB (toString freq) ++ strB "\n"

/-- Magnitude abs(int(ifreq * 1e6)) of sync.py lines 269 and 350: exact rational
truncation toward zero, then absolute value.  The source computes the
product in IEEE double arithmetic; for the configuration value of the
claims (73.095 MHz) the double product rounds to exactly 73095000.0, so the
exact computation and the source agree there. -/
def ifreqOffsetHz (q : ℚ) : ℤ :=
  Int.ofNat (Int.natAbs (Int.tdiv (q.num * 1000000) (q.den : ℤ)))

/-- The ifreq value 73.095 MHz used by the claims, as the reduced rational
14619/200. -/
def ifreq73095 : ℚ := Rat.mk' 14619 200 (by norm_num) (by norm_num)

/-- SyncManager._cleanup_socket: drop the socket, clear the receive buffer,
force sync_on off.  Poller bookkeeping and close() are outside the model;
note that command, frequencies and timers are retained. -/
def cleanup_socket (s : EngineState) (role : Role) : EngineState :=
  let p := s.peer role
  let s1 := s.setPeer role { p with sock := false, recv_buf := [] }
  { s1 with sync_on := false }

/-- What rdo.sock.recv returned when POLLIN fired: an OSError, or a chunk of
bytes (the empty chunk meaning the peer closed the connection). -/
inductive RecvOutcome where
  | oserr
  | data (b : Bytes)
  deriving DecidableEq, Repr

/-- What rdo.sock.sendall did for the queued command: succeeded, raised
BlockingIOError, or raised another OSError. -/
inductive SendOutcome where
  | sent
  | wouldBlock
  | oserr
  deriving DecidableEq, Repr

/-- Body of the per-line loop of SyncManager._process_incoming (lines
457-511) for one nonempty complete line.  Mirrors the source statement by
statement, including its two escape hatches: the RECEIVED debug log decodes
the raw line (UnicodeDecodeError on invalid UTF-8), and a RPRT line without
a space sets code to None in the ValueError handler and then dereferences
code.decode() in the error-report log (AttributeError). -/
def process_part_peer (p : PeerState) (incomplete : Bytes) (part : Bytes) :
    Except PyErr (PeerState × Bool) :=
  if ¬ utf8Valid part then .error .unicodeDecodeError
  else if List.isPrefixOf (strB "RPRT") part then
    match splitFirstSpace part with
    | none => .error .attributeError
    | some (_, code) =>
        if code ≠ [] ∧ code = strB "0" then
          let p1 :=
            if p.freq_sent ≠ none then
              { p with freq_prev := p.freq_cur, freq_cur := p.freq_sent,
                       freq_sent := none }
            else p
          let p2 :=
            if p1.freq_delta_sent ≠ 0 then
              { p1 with freq_delta := p1.freq_delta - p1.freq_delta_sent,
                        freq_delta_sent := 0 }
            else { p1 with freq_delta := 0 }
          .ok ({ p2 with recv_buf := incomplete, is_busy := none }, false)
        else
          .ok ({ p with freq_sent := none, freq_delta := 0,
                        recv_buf := incomplete, is_busy := none }, false)
  else
    match pyParseInt part with
    | some f =>
        if some f ≠ p.freq_prev then
          .ok ({ p with freq_prev := p.freq_cur, freq_cur := some f,
                        recv_buf := incomplete, is_busy := none }, true)
        else
          .ok ({ p with recv_buf := incomplete, is_busy := none }, false)
    | none =>
        .ok ({ p with freq_sent := none, freq_delta := 0,
                      recv_buf := incomplete, is_busy := none }, false)

/-- Engine-level wrapper for one line: run the peer-level body; when the
rig reported a fresh frequency, stamp the change time and clear the
reported flag (lines 499-501). -/
def process_part (s : EngineState) (role : Role) (now : ℤ) (incomplete : Bytes)
    (part : Bytes) : Except PyErr EngineState :=
  match process_part_peer (s.peer role) incomplete part with
  | .error e => .error e
  | .ok (p1, changed) =>
      let s1 :=
        if role = Role.rig ∧ changed then
          { s with last_rig_change := some now, rig_reported := false }
        else s
      .ok (s1.setPeer role p1)

/-- The per-line loop: empty parts are skipped without touching recv_buf or
is_busy (the continue at line 459 jumps over both). -/
def process_parts (role : Role) (now : ℤ) (incomplete : Bytes) :
    EngineState → List Bytes → Except PyErr EngineState
  | s, [] => .ok s
  | s, part :: rest =>
    if part = [] then process_parts role now incomplete s rest
    else
      match process_part s role now incomplete part with
      | .error e => .error e
      | .ok s1 => process_parts role now incomplete s1 rest

/-- SyncManager._process_incoming: read the socket, handle error/death by
socket cleanup, drop data arriving while not busy, extend and head-trim the
receive buffer, frame on newline and process each complete line. -/
def process_incoming (s : EngineState) (role : Role) (now : ℤ)
    (outcome : RecvOutcome) : Except PyErr EngineState :=
  match outcome with
  | .oserr => .ok (cleanup_socket s role)
  | .data [] => .ok (cleanup_socket s role)
  | .data d =>
    let p := s.peer role
    if p.is_busy = none then .ok s
    else
      let buf := p.recv_buf ++ d
      let buf :=
        if buf.length > s.max_read_buffer_bytes then
          buf.drop (buf.length - s.max_read_buffer_bytes)
        else buf
      let parts := splitNl buf
      let complete := parts.dropLast
      let incomplete := parts.getLastD []
      let s1 := s.setPeer role { p with recv_buf := buf }
      process_parts role now incomplete s1 complete

/-- SyncManager._send_command: push the queued command through the socket
when present and the peer is enabled.  BlockingIOError leaves everything
unchanged; another OSError tears the socket down; on success the command is
stamped in flight and the slot cleared.  Note there is no is_busy guard. -/
def send_command (s : EngineState) (role : Role) (now : ℤ)
    (outcome : SendOutcome) : EngineState :=
  let p := s.peer role
  match p.command with
  | none => s
  | some c =>
    if p.sock = false ∨ s.enabledFor role = false then s
    else
      match outcome with
      | .wouldBlock => s
      | .oserr => cleanup_socket s role
      | .sent =>
          s.setPeer role
            { p with sent_log := p.sent_log ++ [c], is_busy := some now,
                     send_timestamp := now, command := none }

/-- tick lines 157-161: whenever freq_cur is unknown, assign the
initial-state query into the command slot (LNB_LO for the SDR in IFreq
mode, f otherwise).  The assignment is unconditional: it does not check
is_busy nor whether a command is already queued. -/
def ensure_freq_cmd (s : EngineState) (role : Role) : EngineState :=
  let p := s.peer role
  if p.freq_cur = none then
    let q := if s.ifreq ≠ none ∧ role = Role.gqrx then lnbQueryCmd else fQueryCmd
    s.setPeer role { p with command := some q }
  else s

/-- SyncManager._freq_query: periodic f query, paced by send_timestamp,
suppressed while busy and for the SDR in IFreq mode; enqueued only into an
empty command slot. -/
def freq_query (s : EngineState) (role : Role) (now : ℤ) : EngineState :=
  let p := s.peer role
  if now - p.send_timestamp < p.freq_query_interval ∨ p.sock = false
      ∨ p.is_busy ≠ none ∨ (s.ifreq ≠ none ∧ role = Role.gqrx) then s
  else if p.command = none then
    s.setPeer role { p with command := some fQueryCmd }
  else s

/-- SyncManager._freq_set: when connected, enabled, idle, with a known
frequency and either a nonzero delta or a policy-chosen freq_sent, fold the
delta into a set command, overwriting the command slot. -/
def freq_set (s : EngineState) (role : Role) : EngineState :=
  let p := s.peer role
  if p.sock = false ∨ s.enabledFor role = false ∨ p.is_busy ≠ none
      ∨ p.freq_cur = none ∨ (p.freq_delta = 0 ∧ p.freq_sent = none) then s
  else
    match p.freq_cur with
    | some cur =>
        let new_freq := cur + p.freq_delta
        s.setPeer role
          { p with freq_delta_sent := p.freq_delta, freq_sent := some new_freq,
                   command := some (build_cat_cmd new_freq false) }
    | none => s

/-- SyncManager.reconnect_socket: lazily (re)create a socket for an enabled
role, throttled by recon_interval; tear the socket down for a disabled
role.  connect_ex on a non-blocking socket always yields a socket object,
so creation never fails here. -/
def reconnect_socket (s : EngineState) (now : ℤ) (role : Role) : EngineState :=
  let p := s.peer role
  if s.enabledFor role = true ∧ p.sock = false
      ∧ now - p.recon_timestamp > p.recon_interval then
    s.setPeer role { p with sock := true, recon_timestamp := now }
  else if s.enabledFor role = false ∧ p.sock = true then cleanup_socket s role
  else s

/-- SyncManager._freq_check_timeout: abandon a command lacking a reply for
longer than the peer timeout, dropping the pending delta. -/
def freq_check_timeout (s : EngineState) (role : Role) (now : ℤ) : EngineState :=
  let p := s.peer role
  match p.is_busy with
  | some t =>
      if now - t > p.timeout then
        s.setPeer role
          { p with is_busy := none, freq_sent := none, freq_delta_sent := 0,
                   freq_delta := 0 }
      else s
  | none => s

/-- Environment of one tick for one peer: which poll flags its fd reported,
and the outcome of the recv and sendall calls the handlers would make.
Poll flags are only meaningful when the role had a registered socket at
poll time; tick gates them on that. -/
structure PeerTickEnv where
  pollErrHup : Bool
  pollIn : Bool
  pollOut : Bool
  recv : RecvOutcome
  send : SendOutcome
  deriving DecidableEq, Repr

/-- Environment of one tick: the per-peer poll and I/O outcomes. -/
structure TickEnv where
  rigE : PeerTickEnv
  gqrxE : PeerTickEnv
  deriving DecidableEq, Repr

/-- A peer environment reporting no poll events at all. -/
def quietEnv : PeerTickEnv :=
  { pollErrHup := false, pollIn := false, pollOut := false,
    recv := RecvOutcome.data [], send := SendOutcome.sent }

/-- The body of the per-role loop of SyncManager.tick (lines 146-166):
POLLHUP/POLLERR cleans up and skips the rest; otherwise read, write,
initial-state query, periodic query, set enqueue, reconnect maintenance and
reply-timeout check run in source order.  hadSock records whether the fd
was registered when poll ran. -/
def per_role (s : EngineState) (role : Role) (now : ℤ) (env : PeerTickEnv)
    (hadSock : Bool) : Except PyErr EngineState :=
  if hadSock ∧ env.pollErrHup then .ok (cleanup_socket s role)
  else
    let afterIn : Except PyErr EngineState :=
      if hadSock ∧ env.pollIn then process_incoming s role now env.recv else .ok s
    match afterIn with
    | .error e => .error e
    | .ok s1 =>
      let s2 := if hadSock ∧ env.pollOut then send_command s1 role now env.send else s1
      let s3 := ensure_freq_cmd s2 role
      let s4 := freq_query s3 role now
      let s5 := freq_set s4 role
      let s6 := reconnect_socket s5 now role
      .ok (freq_check_timeout s6 role now)

/-- SyncManager._log_rig_change: after the rig frequency has been quiet for
the configured wait, mark it reported (the actual file write is an external
effect). -/
def log_rig_change (s : EngineState) (now : ℤ) : EngineState :=
  match s.last_rig_change with
  | some t =>
      if s.log_enabled ∧ ¬ s.rig_reported ∧ now - t > s.wait_before_log_rigfreq then
        { s with rig_reported := true }
      else s
  | none => s

/-- SyncManager._apply_sync_actions: the mode-specific synchronization
policy run once per tick after the per-role loop. -/
def apply_sync_actions (s : EngineState) (now : ℤ) : EngineState :=
  let rig := s.rig
  let gqrx := s.gqrx
  let rig_changed := rig.freq_cur ≠ rig.freq_prev
  let gqrx_changed := gqrx.freq_cur ≠ gqrx.freq_prev
  if ¬ s.sync_on ∨ rig.sock = false ∨ s.rig_enabled = false
      ∨ gqrx.sock = false ∨ s.gqrx_enabled = false
      ∨ rig.freq_cur = none ∨ (gqrx.freq_cur = none ∧ s.ifreq = none) then s
  else
    match s.ifreq with
    | none =>
        if rig_changed then
          if ¬ (s.sync_lead = some Role.gqrx ∧ now - s.sync_time < s.sync_debounce_time)
          then
            match rig.freq_cur with
            | some rigCur =>
                { s with sync_lead := some Role.rig, sync_time := now,
                         rig := { rig with freq_prev := rig.freq_cur },
                         gqrx := { gqrx with freq_sent := rig.freq_cur,
                                             command := some (build_cat_cmd rigCur false) } }
            | none => s
          else s
        else if gqrx_changed then
          if ¬ (s.sync_lead = some Role.rig ∧ now - s.sync_time < s.sync_debounce_time)
          then
            match gqrx.freq_cur with
            | some gqrxCur =>
                { s with sync_lead := some Role.gqrx, sync_time := now,
                         gqrx := { gqrx with freq_prev := gqrx.freq_cur },
                         rig := { rig with freq_sent := gqrx.freq_cur,
                                           command := some (build_cat_cmd gqrxCur false) } }
            | none => s
          else s
        else s
    | some q =>
        if rig_changed then
          match rig.freq_cur with
          | some rigCur =>
              let lo := rigCur - ifreqOffsetHz q
              if some lo ≠ gqrx.freq_cur then
                { s with rig := { rig with freq_prev := rig.freq_cur },
                         gqrx := { gqrx with freq_sent := some lo,
                                             command := some (build_cat_cmd lo true) } }
              else s
          | none => s
        else s

/-- SyncManager._update_sync_state: force sync off while either socket is
absent; restore the recorded user wish when both are present. -/
def update_sync_state (s : EngineState) : EngineState :=
  if s.rig.sock = false ∨ s.gqrx.sock = false then { s with sync_on := false }
  else if s.wanted_sync ∧ s.sync_on = false then { s with sync_on := true }
  else s

/-- SyncManager.tick: one main-loop iteration.  Returns the state unchanged
after shutdown; otherwise runs the per-role pipeline for rig then gqrx and
the once-per-tick actions (_update_band and _update_ui only drive the
display and change no engine state).  A Python exception escaping the body
is the error case. -/
def tick (s : EngineState) (now : ℤ) (env : TickEnv) : Except PyErr EngineState :=
  if s.shutdown_flag then .ok s
  else
    let rigHad := s.rig.sock
    let gqrxHad := s.gqrx.sock
    match per_role s Role.rig now env.rigE rigHad with
    | .error e => .error e
    | .ok s1 =>
      match per_role s1 Role.gqrx now env.gqrxE gqrxHad with
      | .error e => .error e
      | .ok s2 =>
          .ok (update_sync_state (apply_sync_actions (log_rig_change s2 now) now))

/-- The accumulator update of SyncManager.nudge for the chosen peer: add
the delta, then subtract it back when the magnitude tops step times
nudge_buffer. -/
def nudge_peer (s : EngineState) (p : PeerState) (delta : ℤ) : PeerState :=
  let d := p.freq_delta + delta
  let d2 := if |d| > s.step_size * s.nudge_buffer then d - delta else d
  { p with freq_delta := d2 }

/-- SyncManager.nudge: route the delta to the rig when its socket is up and
it is enabled, else to gqrx under the same test, else drop it. -/
def nudge (s : EngineState) (delta : ℤ) : EngineState :=
  if s.rig.sock = true ∧ s.rig_enabled = true then
    { s with rig := nudge_peer s s.rig delta }
  else if s.gqrx.sock = true ∧ s.gqrx_enabled = true then
    { s with gqrx := nudge_peer s s.gqrx delta }
  else s

/-- SyncManager.set_sync_mode: record the wish; honor it only when both
sockets are live. -/
def set_sync_mode (s : EngineState) (state : Bool) : EngineState :=
  let s1 := { s with wanted_sync := state }
  if s1.rig.sock = false ∨ s1.gqrx.sock = false then { s1 with sync_on := false }
  else { s1 with sync_on := state }

/-- One engine API event: a tick with its I/O environment, a nudge, or a
set_sync_mode call. -/
inductive EngineOp where
  | tickOp (now : ℤ) (env : TickEnv)
  | nudgeOp (delta : ℤ)
  | setSyncOp (b : Bool)
  deriving DecidableEq, Repr

/-- Run a sequence of engine API events, propagating a Python exception. -/
def runOps : EngineState → List EngineOp → Except PyErr EngineState
  | s, [] => .ok s
  | s, EngineOp.tickOp now env :: rest =>
    match tick s now env with
    | .error e => .error e
    | .ok s1 => runOps s1 rest
  | s, EngineOp.nudgeOp d :: rest => runOps (nudge s d) rest
  | s, EngineOp.setSyncOp b :: rest => runOps (set_sync_mode s b) rest

/-! ## Reconnection scheduler (src/pansyncer/reconnect_scheduler.py)

Tasks are keyed by the identity of their probe callable, modelled as a
natural number.  Times and durations are integers in an abstract unit as
for the engine.  The jitter draw of random.uniform(1 - jitter, 1 + jitter)
is an oracle input paired with each drained result; theorems constrain it
to that interval. -/

/-- TaskRecord of the scheduler: per-task timing and backoff state.
future_pending models rec.future holding an unfinished Future. -/
structure TaskRecord where
  tag : String
  next_run : ℤ
  interval : ℤ
  backoff : Bool
  failures : ℕ
  generation : ℕ
  last_duration : ℤ
  future_pending : Bool
  deriving DecidableEq, Repr

/-- ReconnectScheduler state: configuration, the task table keyed by probe
identity, and the generation counter. -/
structure SchedState where
  reconnect_interval : ℤ
  backoff_cap : ℤ
  jitter : ℤ
  slow_threshold : ℤ
  tasks : List (ℕ × TaskRecord)
  generation : ℕ
  deriving DecidableEq, Repr

/-- One entry of the scheduler result queue: (fn, success, duration,
generation) as enqueued by _worker_wrapper. -/
structure ProbeResult where
  fn : ℕ
  success : Bool
  duration : ℤ
  generation : ℕ
  deriving DecidableEq, Repr

/-- self.tasks.get(fn). -/
def findTask (tasks : List (ℕ × TaskRecord)) (fn : ℕ) : Option TaskRecord :=
  (tasks.find? (fun kv => kv.1 == fn)).map Prod.snd

/-- Integer power of two, the 2 ** failures of the source, written out so
the kernel evaluates it. -/
def twoPow : ℕ → ℤ
  | 0 => 1
  | n + 1 => 2 * twoPow n

/-- Body of the drain loop of ReconnectScheduler._drain_results for one
dequeued result: drop it if its task is gone or its generation is stale;
otherwise record the duration, apply backoff (reset on success, exponential
with cap on failure, then the jitter factor), push next_run out to
now + interval if earlier, and clear the future. -/
def apply_result (st : SchedState) (now : ℤ) (factor : ℤ) (r : ProbeResult) :
    SchedState :=
  match findTask st.tasks r.fn with
  | none => st
  | some tr =>
    if r.generation ≠ tr.generation then st
    else
      let tr1 := { tr with last_duration := r.duration }
      let tr2 :=
        if tr1.backoff then
          let tr2a :=
            if r.success then
              { tr1 with failures := 0, interval := st.reconnect_interval }
            else
              let f := tr1.failures + 1
              { tr1 with failures := f,
                         interval := min (st.reconnect_interval * twoPow f) st.backoff_cap }
          { tr2a with interval := tr2a.interval * factor }
        else tr1
      let target := now + tr2.interval
      let tr3 := if tr2.next_run < target then { tr2 with next_run := target } else tr2
      let tr4 := { tr3 with future_pending := false }
      { st with tasks := st.tasks.map (fun kv => if kv.1 == r.fn then (kv.1, tr4) else kv) }

/-- ReconnectScheduler._drain_results: apply the queued results in order,
each with its own jitter draw, under the single now taken at entry. -/
def drain_results (now : ℤ) : SchedState → List (ProbeResult × ℤ) → SchedState
  | st, [] => st
  | st, (r, factor) :: rest => drain_results now (apply_result st now factor r) rest

/-- ReconnectScheduler.unregister_tag: bump the generation, then remove
every task whose tag equals the argument or starts with it. -/
def unregister_tag (st : SchedState) (tag : String) : SchedState :=
  let st1 := { st with generation := st.generation + 1 }
  { st1 with tasks :=
      st1.tasks.filter (fun kv =>
        ¬ (kv.2.tag = tag ∨ String.isPrefixOf tag kv.2.tag)) }

/-! ## Concrete base states for traces

The abstract time unit of the model is a tenth of a second of the default
configuration, so the defaults of SyncConfig become: freq_query_interval 1,
socket_recon_interval 30, timeout 20, sync_debounce_time 30,
wait_before_log_rigfreq 50; a step value of 100 Hz and nudge_buffer 10. -/

/-- A radio entry as initialised by SyncManager.__init__ with default
configuration (freq_prev starts as the int 0). -/
def basePeer : PeerState :=
  { sock := false, recon_interval := 30, recon_timestamp := 0, freq_cur := none,
    freq_prev := some 0, freq_sent := none, freq_delta := 0, freq_delta_sent := 0,
    freq_query_interval := 1, is_busy := none, send_timestamp := 0, timeout := 20,
    recv_buf := [], command := none, sent_log := [] }

/-- Engine state as initialised by SyncManager.__init__ with default
configuration, both radio devices enabled, no ifreq, no frequency log. -/
def baseEngine : EngineState :=
  { rig := basePeer, gqrx := basePeer, sync_on := true, wanted_sync := true,
    ifreq := none, step_size := 100, nudge_buffer := 10, sync_debounce_time := 30,
    sync_time := 0, sync_lead := none, rig_enabled := true, gqrx_enabled := true,
    shutdown_flag := false, max_read_buffer_bytes := 65536, log_enabled := false,
    last_rig_change := none, rig_reported := true, wait_before_log_rigfreq := 50 }

/-- A peer environment where only POLLIN fired, delivering the bytes. -/
def inEnv (b : Bytes) : PeerTickEnv :=
  { quietEnv with pollIn := true, recv := RecvOutcome.data b }

/-- A peer environment where only POLLOUT fired and sendall succeeds. -/
def outEnv : PeerTickEnv :=
  { quietEnv with pollOut := true }

/-- A peer environment where POLLIN delivered the bytes and POLLOUT fired. -/
def inOutEnv (b : Bytes) : PeerTickEnv :=
  { quietEnv with pollIn := true, recv := RecvOutcome.data b, pollOut := true }

/-- A tick environment with no events on either peer. -/
def quietTick : TickEnv := { rigE := quietEnv, gqrxE := quietEnv }

/-- A tick environment with events only on the rig fd. -/
def rigTick (e : PeerTickEnv) : TickEnv := { rigE := e, gqrxE := quietEnv }

/-- A tick environment with events only on the gqrx fd. -/
def gqrxTick (e : PeerTickEnv) : TickEnv := { rigE := quietEnv, gqrxE := e }

/-- Project a field out of the final state of a trace, none on a raised
exception. -/
def traceVal {α : Type} (s : EngineState) (ops : List EngineOp)
    (f : EngineState → α) : Option α :=
  match runOps s ops with
  | .ok s1 => some (f s1)
  | .error _ => none

/-- The Python exception a trace raises, if any. -/
def traceErr (s : EngineState) (ops : List EngineOp) : Option PyErr :=
  match runOps s ops with
  | .ok _ => none
  | .error e => some e

/-- Tells whether a successful tick result satisfies a property; a raised
exception satisfies it vacuously. -/
def onOk (r : Except PyErr EngineState) (P : EngineState → Prop) : Prop :=
  match r with
  | .ok s => P s
  | .error _ => True

/-- The surviving part of the IFreq one-way property, as a state invariant:
the SDR command slot never holds the f query and the f query was never
sent on the SDR socket, together with being in IFreq mode. -/
def IfreqInv (s : EngineState) : Prop :=
  s.ifreq ≠ none ∧ s.gqrx.command ≠ some fQueryCmd ∧ fQueryCmd ∉ s.gqrx.sent_log

/-- Start state of the IFreq LO-math scenario: IFreq mode at 73.095 MHz,
both peers connected and enabled, the rig awaiting the reply to an f query,
the SDR LO known as 0. -/
def c8s0 : EngineState :=
  { baseEngine with
    ifreq := some ifreq73095,
    rig := { basePeer with sock := true, freq_cur := some 7000000,
                           freq_prev := some 7000000, is_busy := some 0 },
    gqrx := { basePeer with sock := true, freq_cur := some 0, freq_prev := some 0 } }

/-- Start state of the delta-discard scenario: Direct mode, the rig
disconnected (its frequency retained from before the loss, reconnect
throttle expired), the SDR connected and mid-way through an f query. -/
def c2s0 : EngineState :=
  { baseEngine with
    sync_on := false,
    rig := { basePeer with sock := false, freq_cur := some 14200000,
                           freq_prev := some 14200000, recon_timestamp := -100 },
    gqrx := { basePeer with sock := true, freq_cur := some 14000000,
                            freq_prev := some 14000000, is_busy := some 9,
                            send_timestamp := 9 } }

/-- Delta-discard scenario, up to the point where the sync-policy set
command is in flight on the SDR: a nudge lands on the SDR while the rig is
down, the rig reconnects, reports a new frequency, the policy enqueues its
set and the SDR sends it. -/
def c2ops6 : List EngineOp :=
  [EngineOp.nudgeOp 100, EngineOp.tickOp 10 quietTick, EngineOp.tickOp 11 quietTick,
   EngineOp.tickOp 12 (rigTick outEnv),
   EngineOp.tickOp 13 (rigTick (inEnv (strB "14300000\n"))),
   EngineOp.tickOp 14 (gqrxTick (inOutEnv (strB "14000000\n")))]

/-- Start state of the saturation-overrun scenario: the rig connected with a
known frequency, default step 100 and nudge_buffer 10 (cap 1000). -/
def c3s0 : EngineState :=
  { baseEngine with
    rig := { basePeer with sock := true, freq_cur := some 14000000,
                           freq_prev := some 14000000 } }

/-- Saturation-overrun scenario: fill the accumulator to the cap, let the
set command go in flight, nudge back down to the negative cap during the
flight, then process the ack. -/
def c3ops : List EngineOp :=
  List.replicate 10 (EngineOp.nudgeOp 100) ++
  [EngineOp.tickOp 1 quietTick, EngineOp.tickOp 2 (rigTick outEnv)] ++
  List.replicate 20 (EngineOp.nudgeOp (-100)) ++
  [EngineOp.tickOp 3 (rigTick (inEnv (strB "RPRT 0\n")))]

/-- Start state of the IFreq F-command scenario: IFreq mode, rig
disconnected, SDR connected with a known LO. -/
def c4s0 : EngineState :=
  { baseEngine with
    ifreq := some ifreq73095,
    gqrx := { basePeer with sock := true, freq_cur := some (-59095000),
                            freq_prev := some (-59095000) } }

/-- Start state of the overwrite scenario: IFreq mode, rig connected and
mid-query, SDR connected but its LO not yet known. -/
def c5s0 : EngineState :=
  { baseEngine with
    ifreq := some ifreq73095,
    rig := { basePeer with sock := true, freq_cur := some 7000000,
                           freq_prev := some 7000000, is_busy := some 0 },
    gqrx := { basePeer with sock := true } }

/-- A registered scheduler task with backoff on, at the default base
interval of 3 s, no failures yet, probe running. -/
def schedTask0 : TaskRecord :=
  { tag := "probe", next_run := 0, interval := 3, backoff := true, failures := 0,
    generation := 0, last_duration := 0, future_pending := true }

/-- Scheduler state for the backoff scenario: base 3 s, cap 60 s, jitter 0,
one registered task. -/
def schedBase : SchedState :=
  { reconnect_interval := 3, backoff_cap := 60, jitter := 0, slow_threshold := 1,
    tasks := [(0, schedTask0)], generation := 0 }

/-- A failure result for the registered probe, matching generation. -/
def failProbe : ProbeResult :=
  { fn := 0, success := false, duration := 0, generation := 0 }

/-- A success result for the registered probe, matching generation. -/
def succProbe : ProbeResult :=
  { fn := 0, success := true, duration := 0, generation := 0 }

/-- A peer with a set command outstanding from _freq_set: freq_sent
14300000 with freq_delta_sent 100 folded in, accumulator at 250. -/
def c2wp : PeerState :=
  { basePeer with freq_sent := some 14300000, freq_delta := 250,
                  freq_delta_sent := 100, is_busy := some 5 }

/-- An engine whose rig accumulator sits exactly at the cap of 1000. -/
def c3cap : EngineState :=
  { c3s0 with rig := { basePeer with sock := true, freq_cur := some 14000000,
                                     freq_prev := some 14000000,
                                     freq_delta := 1000 } }

/-- An engine with a pending LNB_LO set command queued on the SDR. -/
def c5pend : EngineState :=
  { baseEngine with
    gqrx := { basePeer with sock := true,
                            command := some (build_cat_cmd (-59095000) true) } }

/-! ## Theorems -/

/-- A CAT set command never equals the b"f\n" query: it starts with an
upper-case F or L byte. -/
theorem build_cat_cmd_ne_fQueryCmd (freq : ℤ) (is_lo : Bool) :
    build_cat_cmd freq is_lo ≠ fQueryCmd := by
  cases is_lo <;>
    · intro h
      simp only [build_cat_cmd, if_true, if_false, Bool.false_eq_true, fQueryCmd,
        strB] at h
      simp [List.cons_append] at h

/-- The LNB_LO query never equals the f query. -/
theorem lnbQueryCmd_ne_fQueryCmd : lnbQueryCmd ≠ fQueryCmd := by decide

/-- C1.  At-most-one-in-flight is violated by the code: starting from the
initial engine state, the rig socket is created at t=31 and the initial f
query is sent at t=32; in the same tick the initial-state query is
re-assigned into the command slot although the peer is now busy (is_busy =
32 while a command is pending), and at t=33, with no reply processed and
well inside the 20-unit timeout, _send_command pushes a second f query, so
two commands are outstanding on the rig socket at once. -/
theorem C1_second_send_while_in_flight :
    traceVal baseEngine
      [EngineOp.tickOp 31 quietTick, EngineOp.tickOp 32 (rigTick outEnv)]
      (fun s => (s.rig.is_busy, s.rig.command, s.rig.sent_log)) =
      some (some 32, some fQueryCmd, [fQueryCmd]) ∧
    traceVal baseEngine
      [EngineOp.tickOp 31 quietTick, EngineOp.tickOp 32 (rigTick outEnv),
       EngineOp.tickOp 33 (rigTick outEnv)]
      (fun s => (s.rig.sent_log, s.rig.is_busy)) =
      some ([fQueryCmd, fQueryCmd], some 33) ∧
    (33 : ℤ) - 32 ≤ basePeer.timeout := by decide

/-- C6.  Error containment is violated by the code: from the initial state,
after the rig connects and sends its f query, delivering the malformed
report line RPRT (no code) makes _process_incoming set code to None in its
ValueError handler and then call code.decode() in the error-report log, an
AttributeError that escapes tick(). -/
theorem C6_malformed_rprt_crashes_tick :
    traceErr baseEngine
      [EngineOp.tickOp 31 quietTick, EngineOp.tickOp 32 (rigTick outEnv),
       EngineOp.tickOp 33 (rigTick (inEnv (strB "RPRT\n")))] =
    some PyErr.attributeError := by decide

/-- C8.  IFreq LO math: with ifreq = 73.095 MHz (offset 73095000 Hz) and
the run conditions satisfied, when the rig reports 14000000 Hz the engine
enqueues exactly b"LNB_LO -59095000\n" for the SDR with freq_sent
-59095000; after the command is sent and the SDR acks with RPRT 0, the
SDR freq_cur is -59095000. -/
theorem C8_ifreq_lo_math :
    ifreqOffsetHz ifreq73095 = 73095000 ∧
    (14000000 : ℤ) - 73095000 = -59095000 ∧
    traceVal c8s0 [EngineOp.tickOp 1 (rigTick (inEnv (strB "14000000\n")))]
      (fun s => (s.gqrx.command, s.gqrx.freq_sent)) =
      some (some (strB "LNB_LO -59095000\n"), some (-59095000)) ∧
    traceVal c8s0
      [EngineOp.tickOp 1 (rigTick (inEnv (strB "14000000\n"))),
       EngineOp.tickOp 2 (gqrxTick outEnv),
       EngineOp.tickOp 3 (gqrxTick (inEnv (strB "RPRT 0\n")))]
      (fun s => (s.gqrx.freq_cur, s.gqrx.sent_log)) =
      some (some (-59095000), [strB "LNB_LO -59095000\n"]) := by decide

/-- C2 counterexample.  An RPRT 0 is processed on the SDR with a set
command outstanding (freq_sent = 14300000, in flight since 14) whose
freq_delta_sent is 0 because the sync policy, not _freq_set, chose it;
the accumulated nudge delta of 100 is then reset to 0 rather than
decreased by the outstanding freq_delta_sent, i.e. it is silently
discarded on a successful ack. -/
theorem C2_ack_discards_nudge_delta_counterexample :
    traceVal c2s0 c2ops6
      (fun s => (s.gqrx.freq_delta, s.gqrx.freq_delta_sent, s.gqrx.freq_sent,
                 s.gqrx.is_busy)) =
      some (100, 0, some 14300000, some 14) ∧
    traceVal c2s0 (c2ops6 ++ [EngineOp.tickOp 15 (gqrxTick (inEnv (strB "RPRT 0\n")))])
      (fun s => (s.gqrx.freq_delta, s.gqrx.freq_cur)) =
      some (0, some 14300000) ∧
    (100 : ℤ) - 0 ≠ 0 := by decide

/-- C3 counterexample.  With step 100 and nudge_buffer 10 (cap 1000), ten
+100 nudges fill the accumulator, the set goes in flight, twenty -100
nudges during the flight bring the accumulator to -1000 — every
intermediate value within the cap — and the RPRT 0 reconciliation then
leaves freq_delta = -2000, whose magnitude exceeds step times
nudge_buffer. -/
theorem C3_cap_exceeded_after_ack_counterexample :
    traceVal c3s0 c3ops (fun s => (s.rig.freq_delta, s.step_size * s.nudge_buffer)) =
      some (-2000, 1000) ∧
    ¬ (|(-2000 : ℤ)| ≤ 1000) := by decide

/-- C4 counterexample.  In IFreq mode (73.095 MHz) with the rig
disconnected, a +100 nudge is routed to the SDR and _freq_set builds and
sends b"F -59094900\n" on the SDR socket: a command that is neither
LNB_LO set nor LNB_LO query. -/
theorem C4_f_set_sent_to_sdr_counterexample :
    traceVal c4s0
      [EngineOp.nudgeOp 100, EngineOp.tickOp 1 quietTick,
       EngineOp.tickOp 2 (gqrxTick outEnv)]
      (fun s => (s.ifreq, s.gqrx.sent_log)) =
      some (some ifreq73095, [strB "F -59094900\n"]) ∧
    strB "F -59094900\n" ≠ lnbQueryCmd ∧
    List.isPrefixOf (strB "LNB_LO") (strB "F -59094900\n") = false := by decide

/-- C5 counterexample.  In IFreq mode the sync policy queues the set
command b"LNB_LO -59095000\n" on the SDR while the SDR LO is still
unknown; the next tick, with the socket not yet writable, the
initial-state query assignment (freq_cur is None) replaces that pending
set command with b"LNB_LO\n": the initial-state query enqueue does
overwrite an already queued command. -/
theorem C5_initial_query_overwrites_counterexample :
    traceVal c5s0 [EngineOp.tickOp 1 (rigTick (inEnv (strB "14000000\n")))]
      (fun s => s.gqrx.command) = some (some (strB "LNB_LO -59095000\n")) ∧
    traceVal c5s0
      [EngineOp.tickOp 1 (rigTick (inEnv (strB "14000000\n"))),
       EngineOp.tickOp 2 quietTick]
      (fun s => s.gqrx.command) = some (some lnbQueryCmd) ∧
    strB "LNB_LO -59095000\n" ≠ lnbQueryCmd := by decide

/-- C2 amended.  Delta reconciliation when the outstanding set carries a
nonzero freq_delta_sent (the _freq_set path): processing the complete line
RPRT 0 commits freq_cur to the outstanding freq_sent, clears freq_sent,
decreases freq_delta by exactly the outstanding freq_delta_sent, zeroes
freq_delta_sent and clears the in-flight marker.  (When freq_delta_sent is
0 — a sync-policy set — the code resets freq_delta to 0 instead, discarding
accumulated nudges; see the counterexample.) -/
theorem C2_delta_reconciliation_amended (p : PeerState) (inc : Bytes) (v : ℤ)
    (hsent : p.freq_sent = some v) (hds : p.freq_delta_sent ≠ 0) :
    process_part_peer p inc (strB "RPRT 0") =
      Except.ok ({ p with freq_prev := p.freq_cur, freq_cur := some v,
                          freq_sent := none,
                          freq_delta := p.freq_delta - p.freq_delta_sent,
                          freq_delta_sent := 0, recv_buf := inc,
                          is_busy := none }, false) := by
  have hne : p.freq_sent ≠ none := by rw [hsent]; exact Option.some_ne_none v
  simp only [process_part_peer]
  rw [if_neg (by decide), if_pos (by decide)]
  simp only [show splitFirstSpace (strB "RPRT 0") = some (strB "RPRT", strB "0")
    from rfl]
  rw [if_pos (by decide), if_pos hne, if_pos hds]
  rw [hsent]

/-- C2 amended, witness: a peer with freq_sent 14300000 and
freq_delta_sent 100 outstanding and freq_delta 250 ends with freq_delta
150, freq_cur 14300000 and everything cleared. -/
theorem C2_delta_reconciliation_amended_witness :
    process_part_peer c2wp [] (strB "RPRT 0") =
      Except.ok ({ c2wp with freq_prev := c2wp.freq_cur, freq_cur := some 14300000,
                             freq_sent := none,
                             freq_delta := c2wp.freq_delta - c2wp.freq_delta_sent,
                             freq_delta_sent := 0, recv_buf := [],
                             is_busy := none }, false) :=
  C2_delta_reconciliation_amended c2wp [] 14300000 rfl (by decide)

/-- C3 amended.  A single nudge preserves the saturation bound on both
peers, and a nudge whose addition would push the accumulator past
step times nudge_buffer has the added delta subtracted back, leaving the
prior accumulated delta intact.  (Ticks that process an RPRT 0 ack can
still push the magnitude past the cap; see the counterexample.) -/
theorem C3_nudge_saturation_amended (s : EngineState) (delta : ℤ) (p : PeerState)
    (hr : |s.rig.freq_delta| ≤ s.step_size * s.nudge_buffer)
    (hg : |s.gqrx.freq_delta| ≤ s.step_size * s.nudge_buffer)
    (hp : |p.freq_delta + delta| > s.step_size * s.nudge_buffer) :
    (|(nudge s delta).rig.freq_delta| ≤ s.step_size * s.nudge_buffer ∧
     |(nudge s delta).gqrx.freq_delta| ≤ s.step_size * s.nudge_buffer) ∧
    (nudge_peer s p delta).freq_delta = p.freq_delta := by
  have hcore : ∀ q : PeerState, |q.freq_delta| ≤ s.step_size * s.nudge_buffer →
      |(nudge_peer s q delta).freq_delta| ≤ s.step_size * s.nudge_buffer := by
    intro q hq
    simp only [nudge_peer]
    split_ifs with h
    · simpa using hq
    · exact not_lt.mp h
  have hback : (nudge_peer s p delta).freq_delta = p.freq_delta := by
    simp only [nudge_peer]
    rw [if_pos hp]
    omega
  refine ⟨?_, hback⟩
  simp only [nudge]
  split_ifs with h1 h2
  · exact ⟨hcore s.rig hr, hg⟩
  · exact ⟨hr, hcore s.gqrx hg⟩
  · exact ⟨hr, hg⟩

/-- C3 amended, witness: with the rig accumulator at the cap 1000, a +100
nudge is refused (the accumulator keeps its value 1000) and both
accumulators stay within the cap. -/
theorem C3_nudge_saturation_amended_witness :
    (|(nudge c3cap 100).rig.freq_delta| ≤ c3cap.step_size * c3cap.nudge_buffer ∧
     |(nudge c3cap 100).gqrx.freq_delta| ≤ c3cap.step_size * c3cap.nudge_buffer) ∧
    (nudge_peer c3cap c3cap.rig 100).freq_delta = c3cap.rig.freq_delta :=
  C3_nudge_saturation_amended c3cap 100 c3cap.rig (by decide) (by decide) (by decide)

/-- C5 amended.  The periodic f query enqueue (_freq_query) never
overwrites a pending command: whatever command is queued for a role is
still queued after _freq_query runs.  (The initial-state query assignment
of tick lines 157-161 is unconditional and does overwrite; see the
counterexample.  Set-command enqueues overwrite by design.) -/
theorem C5_periodic_query_never_overwrites (s : EngineState) (role : Role)
    (now : ℤ) (c : Bytes) (h : (s.peer role).command = some c) :
    ((freq_query s role now).peer role).command = some c := by
  simp only [freq_query]
  split_ifs with h1 h2
  · exact h
  · rw [h2] at h; exact Option.noConfusion h
  · exact h

/-- C5 amended, witness: a pending LNB_LO set command on the SDR survives
_freq_query. -/
theorem C5_periodic_query_never_overwrites_witness :
    ((freq_query c5pend Role.gqrx 50).peer Role.gqrx).command =
      some (build_cat_cmd (-59095000) true) :=
  C5_periodic_query_never_overwrites c5pend Role.gqrx 50 _ rfl

/-- The once-per-tick _update_sync_state establishes both directions of the
sync wish discipline on its result. -/
theorem update_sync_state_spec (t : EngineState) :
    (((update_sync_state t).rig.sock = false ∨
        (update_sync_state t).gqrx.sock = false) →
      (update_sync_state t).sync_on = false) ∧
    ((update_sync_state t).rig.sock = true → (update_sync_state t).gqrx.sock = true →
      (update_sync_state t).wanted_sync = true →
      (update_sync_state t).sync_on = true) := by
  simp only [update_sync_state]
  split_ifs with h1 h2
  · refine ⟨fun _ => rfl, fun hr hg _ => ?_⟩
    have hr' : t.rig.sock = true := hr
    have hg' : t.gqrx.sock = true := hg
    cases h1 with
    | inl h => exact absurd hr' (by simp [h])
    | inr h => exact absurd hg' (by simp [h])
  · exact ⟨fun hf => absurd hf h1, fun _ _ _ => rfl⟩
  · refine ⟨fun hf => absurd hf h1, fun _ _ hw => ?_⟩
    have hw' : t.wanted_sync = true := hw
    rcases not_and_or.mp h2 with h | h
    · exact absurd hw' h
    · cases hb : t.sync_on
      · exact absurd hb h
      · rfl

/-- C7.  Sync auto-disable and restore: on every successful tick of a
non-shut-down engine, the resulting state has sync_on = false whenever
either socket is absent, and sync_on = true whenever both sockets are
present and the recorded wish is true — with no user action in between;
and set_sync_mode true called while a socket is absent records the wish
but leaves sync_on false. -/
theorem C7_sync_auto_disable_restore (s : EngineState) (now : ℤ) (env : TickEnv)
    (hsd : s.shutdown_flag = false) :
    onOk (tick s now env) (fun s1 =>
      ((s1.rig.sock = false ∨ s1.gqrx.sock = false) → s1.sync_on = false) ∧
      (s1.rig.sock = true → s1.gqrx.sock = true → s1.wanted_sync = true →
        s1.sync_on = true)) ∧
    ((s.rig.sock = false ∨ s.gqrx.sock = false) →
      (set_sync_mode s true).wanted_sync = true ∧
      (set_sync_mode s true).sync_on = false) := by
  constructor
  · simp only [tick, hsd]
    rw [if_neg (by decide)]
    cases per_role s Role.rig now env.rigE s.rig.sock with
    | error e => exact trivial
    | ok s1 =>
      dsimp only
      cases per_role s1 Role.gqrx now env.gqrxE s.gqrx.sock with
      | error e => exact trivial
      | ok s2 => exact update_sync_state_spec _
  · intro hsock
    simp only [set_sync_mode]
    have hsock' : ({ s with wanted_sync := true } : EngineState).rig.sock = false ∨
        ({ s with wanted_sync := true } : EngineState).gqrx.sock = false := hsock
    rw [if_pos hsock']
    exact ⟨rfl, rfl⟩

/-- C7 witness: the initial engine state (shutdown flag unset) ticked once
with no events. -/
theorem C7_sync_auto_disable_restore_witness :
    onOk (tick baseEngine 0 quietTick) (fun s1 =>
      ((s1.rig.sock = false ∨ s1.gqrx.sock = false) → s1.sync_on = false) ∧
      (s1.rig.sock = true → s1.gqrx.sock = true → s1.wanted_sync = true →
        s1.sync_on = true)) ∧
    ((baseEngine.rig.sock = false ∨ baseEngine.gqrx.sock = false) →
      (set_sync_mode baseEngine true).wanted_sync = true ∧
      (set_sync_mode baseEngine true).sync_on = false) :=
  C7_sync_auto_disable_restore baseEngine 0 quietTick rfl

/-- C9.  Scheduler backoff: with base 3 s, cap 60 s and jitter 0 (so every
uniform draw is the factor 1), three consecutive failure results drained
for the registered task give it the successive intervals 6, 12 and 24 s —
min(base times 2 to the failures, cap) with failures counting the
consecutive failures so far — and a subsequent success resets the interval
to the 3 s base and failures to 0. -/
theorem C9_scheduler_backoff (f1 f2 f3 f4 : ℤ)
    (h1 : 1 - schedBase.jitter ≤ f1 ∧ f1 ≤ 1 + schedBase.jitter)
    (h2 : 1 - schedBase.jitter ≤ f2 ∧ f2 ≤ 1 + schedBase.jitter)
    (h3 : 1 - schedBase.jitter ≤ f3 ∧ f3 ≤ 1 + schedBase.jitter)
    (h4 : 1 - schedBase.jitter ≤ f4 ∧ f4 ≤ 1 + schedBase.jitter) :
    ((findTask (apply_result schedBase 10 f1 failProbe).tasks 0).map
        TaskRecord.interval = some 6) ∧
    ((findTask (apply_result (apply_result schedBase 10 f1 failProbe) 20 f2
        failProbe).tasks 0).map TaskRecord.interval = some 12) ∧
    ((findTask (apply_result (apply_result (apply_result schedBase 10 f1 failProbe)
        20 f2 failProbe) 30 f3 failProbe).tasks 0).map TaskRecord.interval =
        some 24) ∧
    ((findTask (apply_result (apply_result (apply_result (apply_result schedBase
        10 f1 failProbe) 20 f2 failProbe) 30 f3 failProbe) 40 f4
        succProbe).tasks 0).map TaskRecord.interval = some 3) ∧
    ((findTask (apply_result (apply_result (apply_result (apply_result schedBase
        10 f1 failProbe) 20 f2 failProbe) 30 f3 failProbe) 40 f4
        succProbe).tasks 0).map TaskRecord.failures = some 0) := by
  have hj : schedBase.jitter = 0 := rfl
  rw [hj] at h1 h2 h3 h4
  have e1 : f1 = 1 := by omega
  have e2 : f2 = 1 := by omega
  have e3 : f3 = 1 := by omega
  have e4 : f4 = 1 := by omega
  subst e1; subst e2; subst e3; subst e4
  decide

/-- C9 witness: the jitter-0 draws are exactly 1. -/
theorem C9_scheduler_backoff_witness :
    ((findTask (apply_result schedBase 10 1 failProbe).tasks 0).map
        TaskRecord.interval = some 6) ∧
    ((findTask (apply_result (apply_result schedBase 10 1 failProbe) 20 1
        failProbe).tasks 0).map TaskRecord.interval = some 12) ∧
    ((findTask (apply_result (apply_result (apply_result schedBase 10 1 failProbe)
        20 1 failProbe) 30 1 failProbe).tasks 0).map TaskRecord.interval =
        some 24) ∧
    ((findTask (apply_result (apply_result (apply_result (apply_result schedBase
        10 1 failProbe) 20 1 failProbe) 30 1 failProbe) 40 1
        succProbe).tasks 0).map TaskRecord.interval = some 3) ∧
    ((findTask (apply_result (apply_result (apply_result (apply_result schedBase
        10 1 failProbe) 20 1 failProbe) 30 1 failProbe) 40 1
        succProbe).tasks 0).map TaskRecord.failures = some 0) :=
  C9_scheduler_backoff 1 1 1 1 (by decide) (by decide) (by decide) (by decide)

/-- C10.  Generation validity: a drained probe result whose task is no
longer registered, or whose generation differs from the task record's
current generation, is discarded and leaves the whole scheduler state —
in particular the record's failures, interval, next_run and last_duration
— unchanged. -/
theorem C10_generation_validity (st : SchedState) (now factor : ℤ)
    (r : ProbeResult)
    (h : findTask st.tasks r.fn = none ∨
         ∃ tr, findTask st.tasks r.fn = some tr ∧ r.generation ≠ tr.generation) :
    apply_result st now factor r = st := by
  rcases h with h | ⟨tr, htr, hne⟩
  · simp [apply_result, h]
  · simp [apply_result, htr, hne]

/-- C10 witness: a stale-generation result (generation 0 against a record
re-registered at generation 1) is dropped without touching the state. -/
theorem C10_generation_validity_witness :
    apply_result
      { schedBase with tasks := [(0, { schedTask0 with generation := 1 })],
                       generation := 1 } 10 1 failProbe =
      { schedBase with tasks := [(0, { schedTask0 with generation := 1 })],
                       generation := 1 } :=
  C10_generation_validity _ 10 1 failProbe
    (Or.inr ⟨{ schedTask0 with generation := 1 }, by decide, by decide⟩)

/-! ### IFreq one-way: invariant machinery for C4 -/

/-- Socket cleanup touches only sock, recv_buf and sync_on, so it preserves
the IFreq invariant. -/
theorem cleanup_inv (s : EngineState) (role : Role) (h : IfreqInv s) :
    IfreqInv (cleanup_socket s role) := by
  cases role <;> exact h

/-- The per-line body never writes the command slot or the send log. -/
theorem process_part_peer_frame (p : PeerState) (inc part : Bytes)
    (p1 : PeerState) (b : Bool)
    (h : process_part_peer p inc part = Except.ok (p1, b)) :
    p1.command = p.command ∧ p1.sent_log = p.sent_log := by
  simp only [process_part_peer] at h
  repeat' split at h
  all_goals
    first
      | exact Except.noConfusion h
      | (injection h with h'
         injection h' with hA hB
         subst hA
         exact ⟨rfl, rfl⟩)

/-- One processed line never changes the SDR command slot, the SDR send log
or the mode. -/
theorem process_part_frame (s : EngineState) (role : Role) (now : ℤ)
    (inc part : Bytes) (s2 : EngineState)
    (h : process_part s role now inc part = Except.ok s2) :
    s2.gqrx.command = s.gqrx.command ∧ s2.gqrx.sent_log = s.gqrx.sent_log ∧
    s2.ifreq = s.ifreq := by
  simp only [process_part] at h
  cases hpp : process_part_peer (s.peer role) inc part with
  | error e => rw [hpp] at h; exact Except.noConfusion h
  | ok pr =>
    obtain ⟨p1, b⟩ := pr
    rw [hpp] at h
    injection h with h'
    subst h'
    have hf := process_part_peer_frame (s.peer role) inc part p1 b hpp
    cases role with
    | rig => split_ifs <;> exact ⟨rfl, rfl, rfl⟩
    | gqrx =>
      rw [if_neg (by simp)]
      exact ⟨hf.1, hf.2, rfl⟩

/-- The per-line loop never changes the SDR command slot, the SDR send log
or the mode. -/
theorem process_parts_frame (role : Role) (now : ℤ) (inc : Bytes) :
    ∀ (parts : List Bytes) (s s1 : EngineState),
      process_parts role now inc s parts = Except.ok s1 →
      s1.gqrx.command = s.gqrx.command ∧ s1.gqrx.sent_log = s.gqrx.sent_log ∧
      s1.ifreq = s.ifreq := by
  intro parts
  induction parts with
  | nil =>
    intro s s1 h
    simp only [process_parts] at h
    injection h with h'
    subst h'
    exact ⟨rfl, rfl, rfl⟩
  | cons part rest ih =>
    intro s s1 h
    simp only [process_parts] at h
    split at h
    · exact ih s s1 h
    · cases hp : process_part s role now inc part with
      | error e => rw [hp] at h; exact Except.noConfusion h
      | ok s2 =>
        rw [hp] at h
        have h1 := process_part_frame s role now inc part s2 hp
        have h2 := ih s2 s1 h
        exact ⟨h2.1.trans h1.1, (h2.2.1).trans h1.2.1, (h2.2.2).trans h1.2.2⟩

/-- _process_incoming preserves the IFreq invariant: it only reads, cleans
up, or updates frequency bookkeeping. -/
theorem process_incoming_inv (s : EngineState) (role : Role) (now : ℤ)
    (o : RecvOutcome) (s1 : EngineState)
    (h : process_incoming s role now o = Except.ok s1) (hinv : IfreqInv s) :
    IfreqInv s1 := by
  cases o with
  | oserr =>
    injection h with h'
    subst h'
    exact cleanup_inv s role hinv
  | data d =>
    cases d with
    | nil =>
      injection h with h'
      subst h'
      exact cleanup_inv s role hinv
    | cons b0 bs =>
      simp only [process_incoming] at h
      split at h
      · injection h with h'; subst h'; exact hinv
      · obtain ⟨hc, hs, hi⟩ := process_parts_frame role now _ _ _ _ h
        cases role with
        | rig =>
          refine ⟨?_, ?_, ?_⟩
          · intro hx
            have hx' : s.ifreq = none := hi ▸ hx
            exact hinv.1 hx'
          · intro hx
            have hx' : s.gqrx.command = some fQueryCmd := hc ▸ hx
            exact hinv.2.1 hx'
          · intro hx
            have hx' : fQueryCmd ∈ s.gqrx.sent_log := hs ▸ hx
            exact hinv.2.2 hx'
        | gqrx =>
          refine ⟨?_, ?_, ?_⟩
          · intro hx
            have hx' : s.ifreq = none := hi ▸ hx
            exact hinv.1 hx'
          · intro hx
            have hx' : s.gqrx.command = some fQueryCmd := hc ▸ hx
            exact hinv.2.1 hx'
          · intro hx
            have hx' : fQueryCmd ∈ s.gqrx.sent_log := hs ▸ hx
            exact hinv.2.2 hx'

/-- _send_command preserves the IFreq invariant: it can only send the
already-vetted queued command and clear the slot. -/
theorem send_command_inv (s : EngineState) (role : Role) (now : ℤ)
    (o : SendOutcome) (h : IfreqInv s) : IfreqInv (send_command s role now o) := by
  simp only [send_command]
  cases hc : (s.peer role).command with
  | none => exact h
  | some c =>
    split_ifs with h1
    · exact h
    · cases o with
      | wouldBlock => exact h
      | oserr => exact cleanup_inv s role h
      | sent =>
        cases role with
        | rig => exact h
        | gqrx =>
          refine ⟨h.1, ?_, ?_⟩
          · intro hx
            exact Option.noConfusion (show (none : Option Bytes) = some fQueryCmd from hx)
          · intro hmem
            have hmem' : fQueryCmd ∈ s.gqrx.sent_log ++ [c] := hmem
            rcases List.mem_append.mp hmem' with hm | hm
            · exact h.2.2 hm
            · have hfc : fQueryCmd = c := List.mem_singleton.mp hm
              apply h.2.1
              have hc' : s.gqrx.command = some c := hc
              rw [hc', hfc]

/-- The initial-state query assignment preserves the IFreq invariant: in
IFreq mode the SDR gets the LNB_LO query, never f. -/
theorem ensure_freq_cmd_inv (s : EngineState) (role : Role) (h : IfreqInv s) :
    IfreqInv (ensure_freq_cmd s role) := by
  simp only [ensure_freq_cmd]
  split_ifs with h1 h2
  · obtain ⟨hif, hrole⟩ := h2
    subst hrole
    refine ⟨h.1, ?_, h.2.2⟩
    intro hx
    have hx' : some lnbQueryCmd = some fQueryCmd := hx
    injection hx' with hx''
    exact lnbQueryCmd_ne_fQueryCmd hx''
  · cases role with
    | rig => exact h
    | gqrx => exact absurd ⟨h.1, rfl⟩ h2
  · exact h

/-- _freq_query preserves the IFreq invariant: for the SDR in IFreq mode
its guard fires and it does nothing. -/
theorem freq_query_inv (s : EngineState) (role : Role) (now : ℤ)
    (h : IfreqInv s) : IfreqInv (freq_query s role now) := by
  simp only [freq_query]
  split_ifs with h1 h2
  · exact h
  · cases role with
    | rig => exact h
    | gqrx => exact absurd (Or.inr (Or.inr (Or.inr ⟨h.1, rfl⟩))) h1
  · exact h

/-- _freq_set preserves the IFreq invariant: the command it queues for the
SDR is an F set command, which is not the f query (this is exactly the
path that falsifies the unamended claim). -/
theorem freq_set_inv (s : EngineState) (role : Role) (h : IfreqInv s) :
    IfreqInv (freq_set s role) := by
  simp only [freq_set]
  split_ifs with h1
  · exact h
  · cases hc : (s.peer role).freq_cur with
    | none => exact h
    | some cur =>
      cases role with
      | rig => exact h
      | gqrx =>
        refine ⟨h.1, ?_, h.2.2⟩
        intro hx
        have hx' : some (build_cat_cmd (cur + (s.peer Role.gqrx).freq_delta) false) =
            some fQueryCmd := hx
        injection hx' with hx''
        exact build_cat_cmd_ne_fQueryCmd _ false hx''

/-- reconnect_socket preserves the IFreq invariant. -/
theorem reconnect_socket_inv (s : EngineState) (now : ℤ) (role : Role)
    (h : IfreqInv s) : IfreqInv (reconnect_socket s now role) := by
  simp only [reconnect_socket]
  split_ifs with h1 h2
  · cases role <;> exact h
  · exact cleanup_inv s role h
  · exact h

/-- _freq_check_timeout preserves the IFreq invariant. -/
theorem freq_check_timeout_inv (s : EngineState) (role : Role) (now : ℤ)
    (h : IfreqInv s) : IfreqInv (freq_check_timeout s role now) := by
  simp only [freq_check_timeout]
  cases hb : (s.peer role).is_busy with
  | none => exact h
  | some t =>
    dsimp only
    split_ifs with h1
    · cases role <;> exact h
    · exact h

/-- The whole per-role pipeline preserves the IFreq invariant on success. -/
theorem per_role_inv (s : EngineState) (role : Role) (now : ℤ)
    (env : PeerTickEnv) (hadSock : Bool) (s1 : EngineState)
    (h : per_role s role now env hadSock = Except.ok s1) (hinv : IfreqInv s) :
    IfreqInv s1 := by
  simp only [per_role] at h
  split at h
  · injection h with h'
    subst h'
    exact cleanup_inv s role hinv
  · have hstep : ∀ sA : EngineState, IfreqInv sA →
        IfreqInv (freq_check_timeout (reconnect_socket (freq_set (freq_query
          (ensure_freq_cmd (if hadSock = true ∧ env.pollOut = true then
            send_command sA role now env.send else sA) role) role now) role)
          now role) role now) := by
      intro sA hA
      refine freq_check_timeout_inv _ _ _ (reconnect_socket_inv _ _ _
        (freq_set_inv _ _ (freq_query_inv _ _ _ (ensure_freq_cmd_inv _ _ ?_))))
      split_ifs with ho
      · exact send_command_inv sA role now env.send hA
      · exact hA
    by_cases h2 : hadSock = true ∧ env.pollIn = true
    · rw [if_pos h2] at h
      cases hpi : process_incoming s role now env.recv with
      | error e => rw [hpi] at h; exact Except.noConfusion h
      | ok sA =>
        rw [hpi] at h
        injection h with h'
        subst h'
        exact hstep sA (process_incoming_inv s role now env.recv sA hpi hinv)
    · rw [if_neg h2] at h
      injection h with h'
      subst h'
      exact hstep s hinv

/-- _log_rig_change preserves the IFreq invariant. -/
theorem log_rig_change_inv (s : EngineState) (now : ℤ) (h : IfreqInv s) :
    IfreqInv (log_rig_change s now) := by
  simp only [log_rig_change]
  cases hc : s.last_rig_change with
  | none => exact h
  | some t =>
    dsimp only
    split_ifs with h1 <;> exact h

/-- The sync policy preserves the IFreq invariant: in IFreq mode it only
ever queues an LNB_LO set command on the SDR. -/
theorem apply_sync_actions_inv (s : EngineState) (now : ℤ) (h : IfreqInv s) :
    IfreqInv (apply_sync_actions s now) := by
  simp only [apply_sync_actions]
  split
  · exact h
  · cases hq : s.ifreq with
    | none => exact absurd hq h.1
    | some q =>
      dsimp only
      split
      · cases hr : s.rig.freq_cur with
        | none => exact h
        | some rigCur =>
          dsimp only
          split
          · refine ⟨?_, ?_, ?_⟩
            · intro hx
              exact Option.noConfusion (show (some q : Option ℚ) = none from hx)
            · intro hx
              have hx' : some (build_cat_cmd (rigCur - ifreqOffsetHz q) true) =
                  some fQueryCmd := hx
              injection hx' with hx''
              exact build_cat_cmd_ne_fQueryCmd _ true hx''
            · intro hx
              exact h.2.2 (show fQueryCmd ∈ s.gqrx.sent_log from hx)
          · exact h
      · exact h

/-- _update_sync_state preserves the IFreq invariant. -/
theorem update_sync_state_inv (s : EngineState) (h : IfreqInv s) :
    IfreqInv (update_sync_state s) := by
  simp only [update_sync_state]
  split_ifs <;> exact h

/-- C4 amended.  In IFreq mode the engine never enqueues the plain f query
for the SDR and never sends it on the SDR socket: the invariant — SDR
command slot never b"f\n" and b"f\n" never in the SDR send log — is
preserved by every successful tick.  (Frequency-set commands F hz can
still be queued and sent to the SDR through the nudge and _freq_set path,
which is what falsifies the claim as stated; see the counterexample.) -/
theorem C4_ifreq_one_way_amended (s : EngineState) (now : ℤ) (env : TickEnv)
    (hinv : IfreqInv s) : onOk (tick s now env) IfreqInv := by
  simp only [tick]
  split_ifs with hsd
  · exact hinv
  · cases h1 : per_role s Role.rig now env.rigE s.rig.sock with
    | error e => exact trivial
    | ok sA =>
      dsimp only
      cases h2 : per_role sA Role.gqrx now env.gqrxE s.gqrx.sock with
      | error e => exact trivial
      | ok sB =>
        exact update_sync_state_inv _ (apply_sync_actions_inv _ now
          (log_rig_change_inv _ now (per_role_inv sA Role.gqrx now env.gqrxE
            s.gqrx.sock sB h2 (per_role_inv s Role.rig now env.rigE s.rig.sock
              sA h1 hinv))))

/-- C4 amended, witness: a fresh IFreq-mode engine ticked once with no
events keeps the invariant. -/
theorem C4_ifreq_one_way_amended_witness :
    onOk (tick { baseEngine with ifreq := some ifreq73095 } 1 quietTick)
      IfreqInv :=
  C4_ifreq_one_way_amended { baseEngine with ifreq := some ifreq73095 } 1
    quietTick ⟨by decide, by decide, by decide⟩

end Pansyncer
